import Mathlib

/-!
Shallow embedding of the WebRTC call/file-transfer core of the repository
(CallHandler, AbstractPeerConnection, FilePeerConnection, the vuex store's
call-info mutations and the room converters), together with proofs about the
properties the specification states for them.

Stateful methods are embedded as explicit state-passing functions that also
return the ordered list of observable events (subscription notifications,
native API calls, store mutations) they emit; fallible code returns
`Option`/`Except`.
-/

namespace Djangochat

/-! ### Shared enumerations (from the types modules of the source) -/

/-- The `CallStatus` union type used by `CallHandler.callStatus`. -/
inductive CallStatus where
  | not_inited
  | sent_offer
  | received_offer
  | accepted
deriving DecidableEq, Repr

/-- The `ConnectionStatus` union type of `AbstractPeerConnection.connectionStatus`. -/
inductive ConnectionStatus where
  | new
  | negotiating
  | connected
  | closed
deriving DecidableEq, Repr

/-! ### Subscription keys

Modelled from the spec: `Subscription.getPeerConnectionId` /
`Subscription.getTransferId` themselves are not under the provided sources;
the spec describes the two key families as "one scoped to a session
(`connectionId`), one scoped to a session+opponent pair
(`connectionId:opponentId`)". -/

/-- Modelled from the spec: pair-scoped subscription key `connectionId:opponentId`. -/
def getPeerConnectionId (connectionId opponentWsId : String) : String :=
  connectionId ++ ":" ++ opponentWsId

/-- Modelled from the spec: session-scoped subscription key, derived from the
connection id alone. -/
def getTransferId (connectionId : String) : String :=
  connectionId

/-! ### C1: glare resolution in `CallHandler.createCallPeerConnection` -/

/-- Which concrete peer-connection class `CallHandler.createCallPeerConnection`
instantiates for an opponent. -/
inductive CallPeerRole where
  | sender
  | receiver
deriving DecidableEq, Repr

/-- The role choice of `CallHandler.createCallPeerConnection`
(src/unnamed/part_000, lines 324-331): the branch
`message.opponentWsId > this.wsHandler.getWsConnectionId()` instantiates
`CallSenderPeerConnection`, the other branch `CallReceiverPeerConnection`.
The ws identifiers are strings compared lexicographically. -/
def createCallPeerConnectionRole (ownWsId opponentWsId : String) : CallPeerRole :=
  if ownWsId < opponentWsId then CallPeerRole.sender else CallPeerRole.receiver

/-- Modelled from the spec: `CallSenderPeerConnection` is not under the provided
sources; per the spec the `connectToRemote` directive makes its addressee
"attach `stream` and begin negotiation", i.e. the sender-role side creates the
offer while the receiver-role side answers it. -/
def createsOffer (r : CallPeerRole) : Bool :=
  match r with
  | CallPeerRole.sender => true
  | CallPeerRole.receiver => false

/-- Helper: the concrete lexicographic fact used for witnesses, transferred to
the decidable list order. -/
theorem string_a_lt_b : ("a" : String) < "b" := by
  rw [String.lt_iff_toList_lt]
  decide

/-- C1 (counterexample): the claim says the side with the lower identifier
always becomes the answerer.  On the concrete pair of distinct identifiers
"a" < "b", the side whose own id is "a" (the lower one) instantiates the
sender class, i.e. it is the side that creates the offer, not the answerer. -/
theorem createCallPeerConnectionRole_lower_id_offers :
    ("a" : String) < "b" ∧
    createCallPeerConnectionRole "a" "b" = CallPeerRole.sender ∧
    createsOffer (createCallPeerConnectionRole "a" "b") = true := by
  refine ⟨string_a_lt_b, ?_, ?_⟩ <;>
    simp only [createCallPeerConnectionRole, if_pos string_a_lt_b, createsOffer]

/-- C1 (amended): glare resolution is deterministic (a pure function of the two
identifiers) and symmetric: for distinct identifiers the two sides compute
complementary roles, so exactly one side creates the offer — and it is the
side with the LOWER identifier that becomes the offer creator (the higher
identifier becomes the answerer). -/
theorem createCallPeerConnectionRole_symmetric (a b : String) (h : a ≠ b) :
    (createCallPeerConnectionRole a b = CallPeerRole.sender ↔
      createCallPeerConnectionRole b a = CallPeerRole.receiver) ∧
    (a < b →
      createsOffer (createCallPeerConnectionRole a b) = true ∧
      createsOffer (createCallPeerConnectionRole b a) = false) := by
  rcases lt_trichotomy a b with hab | hab | hab
  · constructor
    · constructor
      · intro _
        simp only [createCallPeerConnectionRole, if_neg (asymm hab)]
      · intro _
        simp only [createCallPeerConnectionRole, if_pos hab]
    · intro _
      constructor
      · simp only [createCallPeerConnectionRole, if_pos hab, createsOffer]
      · simp only [createCallPeerConnectionRole, if_neg (asymm hab), createsOffer]
  · exact absurd hab h
  · constructor
    · constructor
      · intro hs
        simp only [createCallPeerConnectionRole, if_neg (not_lt_of_lt hab)] at hs
        exact CallPeerRole.noConfusion hs
      · intro hr
        simp only [createCallPeerConnectionRole, if_pos hab] at hr
        exact CallPeerRole.noConfusion hr
    · intro hlt
      exact absurd hlt (asymm hab)

/-- C1 witness: the amended theorem applied to the concrete distinct pair
"a", "b". -/
theorem createCallPeerConnectionRole_symmetric_witness :
    (createCallPeerConnectionRole "a" "b" = CallPeerRole.sender ↔
      createCallPeerConnectionRole "b" "a" = CallPeerRole.receiver) ∧
    (("a" : String) < "b" →
      createsOffer (createCallPeerConnectionRole "a" "b") = true ∧
      createsOffer (createCallPeerConnectionRole "b" "a") = false) :=
  createCallPeerConnectionRole_symmetric "a" "b" (ne_of_lt string_a_lt_b)

/-! ### CallHandler (src/unnamed/part_000)

Streams are identified by numerals.  `localStreamActive` models the `active`
property of the captured `MediaStream` (`this.localStream.active`); a freshly
captured stream is active.  `ownWsId` models
`this.wsHandler.getWsConnectionId()`.  The result of an awaited
`captureInput()` is passed in as an explicit `captured` argument; the events a
method emits (subscription notifications, store mutations, ws sends, track
stops) are returned in emission order. -/

structure CallHandlerState where
  localStream : Option Nat
  localStreamActive : Bool
  callStatus : CallStatus
  connectionId : Option String
  acceptedPeers : List String
  webrtcConnnectionsIds : List String
  ownWsId : String
deriving DecidableEq, Repr

/-- Observable actions of `CallHandler` methods, in emission order. -/
inductive CallEvent where
  | captureInput
  | destroyAudioProcessor
  | stopTrack (stream : Nat)
  | attachLocalStream (stream : Nat)
  | notifyStreamChanged (handler : String) (newStream : Nat) (oldStream : Nat)
  | notifyConnectToRemote (handler : String) (stream : Option Nat)
  | storeSetIncomingCall (connId : Option String)
  | storeSetCallActive (state : Bool)
  | storeSetContainer (state : Bool)
  | storeSetVideo (state : Bool)
  | storeSetMic (state : Bool)
  | setCallStatus (status : CallStatus)
  | wsAcceptCall (connId : String)
  | wsReplyCall (connId : String)
  | subscribe (key : String)
  | logError (message : String)
  | createPeer (role : CallPeerRole) (opponentWsId : String)
  | routerReplace
deriving DecidableEq, Repr

/-- `CallHandler.destroyStreamData` (lines 483-490): stops every track of the
given stream (modelled as one `stopTrack` event per stream). -/
def destroyStreamData (endStream : Option Nat) : List CallEvent :=
  match endStream with
  | some s => [CallEvent.stopTrack s]
  | none => []

/-- `CallHandler.stopLocalStream` (lines 400-403): destroys the audio processor
and stops the tracks of `this.localStream`. -/
def stopLocalStream (st : CallHandlerState) : List CallEvent :=
  CallEvent.destroyAudioProcessor :: destroyStreamData st.localStream

/-- `CallHandler.attachLocalStream` (lines 492-504): records the stream as
`this.localStream` (the stream just captured, hence active) and publishes it
to the store. -/
def attachLocalStream (st : CallHandlerState) (stream : Nat) :
    CallHandlerState × List CallEvent :=
  ({st with localStream := some stream, localStreamActive := true},
   [CallEvent.attachLocalStream stream])

/-- `CallHandler.updateConnection` (lines 219-241).  When a local stream exists
and is active it awaits `captureInput()` (resolving to `captured`), calls
`stopLocalStream()`, then `attachLocalStream(stream)`, and only then notifies
every entry of `webrtcConnnectionsIds` with a `streamChanged` message whose
`oldStream` field reads `this.localStream` — which `attachLocalStream` has
already overwritten with the new stream. -/
def updateConnection (st : CallHandlerState) (captured : Nat) :
    CallHandlerState × List CallEvent :=
  match st.localStream, st.localStreamActive with
  | some _, true =>
    let ev1 := stopLocalStream st
    let r := attachLocalStream st captured
    let st1 := r.1
    let ev3 := st1.webrtcConnnectionsIds.map (fun pcName =>
      CallEvent.notifyStreamChanged
        (getPeerConnectionId (st1.connectionId.getD "") pcName)
        captured
        (st1.localStream.getD 0))
    (st1, CallEvent.captureInput :: (ev1 ++ r.2 ++ ev3))
  | _, _ => (st, [])

/-- Concrete pre-state for C2: an active call with local stream 1 and two
connected peer links. -/
def c2State : CallHandlerState :=
  { localStream := some 1
    localStreamActive := true
    callStatus := CallStatus.accepted
    connectionId := some "c"
    acceptedPeers := []
    webrtcConnnectionsIds := ["p1", "p2"]
    ownWsId := "w" }

/-- C2: evaluating `updateConnection` on a two-link call replacing stream 1 by
stream 2 shows the divergence from the claim: the old stream's tracks are
stopped BEFORE any `streamChanged` notification is emitted, and both
notifications carry `oldStream = 2` — the freshly captured stream, not the
stream being replaced — because `oldStream: this.localStream!` is read after
`attachLocalStream` reassigned `this.localStream`. -/
theorem updateConnection_stops_before_notifying :
    (updateConnection c2State 2).2 =
      [CallEvent.captureInput,
       CallEvent.destroyAudioProcessor,
       CallEvent.stopTrack 1,
       CallEvent.attachLocalStream 2,
       CallEvent.notifyStreamChanged "c:p1" 2 2,
       CallEvent.notifyStreamChanged "c:p2" 2 2] := by
  decide

/-- `CallHandler.doAnswer` (lines 360-387): resets the incoming-call model,
sets the UI flags, marks the status accepted, awaits `captureInput()`
(resolving to `captured`), attaches the stream, accepts the call on the ws,
then notifies every entry of `acceptedPeers` with `connectToRemote` carrying
`this.localStream`, and finally navigates to the room.  The `acceptedPeers`
array itself is never modified. -/
def doAnswer (st : CallHandlerState) (withVideo : Bool) (captured : Nat) :
    CallHandlerState × List CallEvent :=
  let ev0 := [CallEvent.storeSetIncomingCall none,
              CallEvent.storeSetCallActive true,
              CallEvent.storeSetContainer true,
              CallEvent.storeSetVideo withVideo,
              CallEvent.storeSetMic true,
              CallEvent.setCallStatus CallStatus.accepted,
              CallEvent.captureInput]
  let st1 := {st with callStatus := CallStatus.accepted}
  let r := attachLocalStream st1 captured
  let st2 := r.1
  let ev2 := [CallEvent.wsAcceptCall (st2.connectionId.getD "")]
  let ev3 := st2.acceptedPeers.map (fun e =>
    CallEvent.notifyConnectToRemote
      (getPeerConnectionId (st2.connectionId.getD "") e) st2.localStream)
  (st2, ev0 ++ r.2 ++ ev2 ++ ev3 ++ [CallEvent.routerReplace])

/-- The `connectToRemote` notifications contained in an event list, in order. -/
def connectNotifications (evs : List CallEvent) : List CallEvent :=
  evs.filter (fun e =>
    match e with
    | CallEvent.notifyConnectToRemote _ _ => true
    | _ => false)

/-- Concrete pre-state for C5: a callee that queued opponent "x" while in
`received_offer`. -/
def c5State : CallHandlerState :=
  { localStream := none
    localStreamActive := false
    callStatus := CallStatus.received_offer
    connectionId := some "c"
    acceptedPeers := ["x"]
    webrtcConnnectionsIds := ["x"]
    ownWsId := "w" }

/-- C5 (counterexample): the claim says `AcceptedPeersList` is cleared (left
empty) after `doAnswer` completes; on a state with one queued opponent the
array still holds that opponent afterwards — nothing in `doAnswer` empties
it. -/
theorem doAnswer_does_not_clear_acceptedPeers :
    (doAnswer c5State false 7).1.acceptedPeers = ["x"] ∧
    (["x"] : List String) ≠ [] := by
  decide

/-- C5 (amended): after `doAnswer` completes, every opponent queued in
`acceptedPeers` has been sent a `connectToRemote` notification carrying the
newly captured local stream, in the original FIFO order — but the
`acceptedPeers` list is NOT cleared: it is left exactly as it was. -/
theorem doAnswer_connects_fifo_and_keeps_queue (st : CallHandlerState)
    (withVideo : Bool) (captured : Nat) :
    connectNotifications (doAnswer st withVideo captured).2 =
      st.acceptedPeers.map (fun e =>
        CallEvent.notifyConnectToRemote
          (getPeerConnectionId (st.connectionId.getD "") e) (some captured)) ∧
    (doAnswer st withVideo captured).1.acceptedPeers = st.acceptedPeers := by
  constructor
  · simp only [doAnswer, attachLocalStream, connectNotifications,
      List.filter_append, List.filter_cons, List.filter_nil]
    simp [List.filter_map, Function.comp_def, List.filter_eq_self]
  · rfl

/-- `CallHandler.onacceptCall` (lines 79-93): if this side is not in
`received_offer` (it is the call initiator) it requires a connection id
(`throw Error` otherwise, modelled as `Except.error`) and immediately notifies
`connectToRemote` for the accepting opponent with the already-captured
`this.localStream`; otherwise the opponent id is pushed onto
`acceptedPeers`. -/
def onacceptCall (st : CallHandlerState) (opponentWsId : String) :
    Except String (CallHandlerState × List CallEvent) :=
  if st.callStatus ≠ CallStatus.received_offer then
    match st.connectionId with
    | none => Except.error "Conn is is null"
    | some connId =>
      Except.ok (st, [CallEvent.notifyConnectToRemote
        (getPeerConnectionId connId opponentWsId) st.localStream])
  else
    Except.ok ({st with acceptedPeers := st.acceptedPeers ++ [opponentWsId]}, [])

/-- C6: `onacceptCall` case analysis.  When the local status is anything other
than `received_offer` and a connection id exists, the opponent immediately
receives a `connectToRemote` notification carrying the already-captured local
stream (the state is untouched and no `captureInput` happens — the returned
event list contains only the notification); with the connection id missing an
invariant error is raised; when the status is `received_offer` the opponent id
is appended to `acceptedPeers` and no notification is emitted. -/
theorem onacceptCall_cases (st : CallHandlerState) (opp : String) :
    (st.callStatus ≠ CallStatus.received_offer → ∀ c, st.connectionId = some c →
      onacceptCall st opp = Except.ok (st,
        [CallEvent.notifyConnectToRemote (getPeerConnectionId c opp) st.localStream])) ∧
    (st.callStatus ≠ CallStatus.received_offer → st.connectionId = none →
      onacceptCall st opp = Except.error "Conn is is null") ∧
    (st.callStatus = CallStatus.received_offer →
      onacceptCall st opp =
        Except.ok ({st with acceptedPeers := st.acceptedPeers ++ [opp]}, [])) := by
  refine ⟨?_, ?_, ?_⟩
  · intro hne c hc
    simp [onacceptCall, hne, hc]
  · intro hne hc
    simp [onacceptCall, hne, hc]
  · intro heq
    simp [onacceptCall, heq]

/-- Concrete initiator state for the C6 witness. -/
def c6InitiatorState : CallHandlerState :=
  { localStream := some 3
    localStreamActive := true
    callStatus := CallStatus.sent_offer
    connectionId := some "c"
    acceptedPeers := []
    webrtcConnnectionsIds := []
    ownWsId := "w" }

/-- Concrete initiator state without a connection id for the C6 witness. -/
def c6NoConnState : CallHandlerState :=
  { c6InitiatorState with connectionId := none }

/-- Concrete callee state (still in `received_offer`) for the C6 witness. -/
def c6CalleeState : CallHandlerState :=
  { c6InitiatorState with callStatus := CallStatus.received_offer,
                          acceptedPeers := ["p"] }

/-- C6 witness: the three cases of `onacceptCall_cases` discharged on concrete
states. -/
theorem onacceptCall_cases_witness :
    onacceptCall c6InitiatorState "q" = Except.ok (c6InitiatorState,
      [CallEvent.notifyConnectToRemote "c:q" (some 3)]) ∧
    onacceptCall c6NoConnState "q" = Except.error "Conn is is null" ∧
    onacceptCall c6CalleeState "q" =
      Except.ok ({c6CalleeState with acceptedPeers := ["p", "q"]}, []) :=
  ⟨(onacceptCall_cases c6InitiatorState "q").1 (by decide) "c" rfl,
   (onacceptCall_cases c6NoConnState "q").2.1 (by decide) rfl,
   (onacceptCall_cases c6CalleeState "q").2.2 rfl⟩

/-- The `OfferCall` message handled by `initAndDisplayOffer`. -/
structure OfferCallMessage where
  connId : String
  roomId : Nat
  userId : Nat
  opponentWsId : String
deriving DecidableEq, Repr

/-- `CallHandler.createCallPeerConnection` (lines 324-331) as a state step:
instantiates the sender or receiver peer-connection class according to the
identifier comparison and pushes the opponent onto
`webrtcConnnectionsIds`. -/
def createCallPeerConnection (st : CallHandlerState) (opponentWsId : String) :
    CallHandlerState × List CallEvent :=
  ({st with webrtcConnnectionsIds := st.webrtcConnnectionsIds ++ [opponentWsId]},
   [CallEvent.createPeer (createCallPeerConnectionRole st.ownWsId opponentWsId)
      opponentWsId])

/-- `CallHandler.initAndDisplayOffer` (lines 337-354): sets the call status to
`received_offer`; if a connection id already exists it only LOGS an error
(`Old connId still exists`) and falls through; it then unconditionally
overwrites `this.connectionId` with the incoming `connId`, subscribes the
session key, replies on the ws, pushes the offering opponent onto
`acceptedPeers`, surfaces the incoming-call model and creates the peer
connection. -/
def initAndDisplayOffer (st : CallHandlerState) (message : OfferCallMessage) :
    CallHandlerState × List CallEvent :=
  let st1 := {st with callStatus := CallStatus.received_offer}
  let ev0 := [CallEvent.setCallStatus CallStatus.received_offer]
  let ev1 := match st1.connectionId with
    | some old => [CallEvent.logError ("Old connId still exists " ++ old)]
    | none => []
  let st2 := {st1 with connectionId := some message.connId}
  let ev2 := [CallEvent.subscribe (getTransferId message.connId),
              CallEvent.wsReplyCall message.connId]
  let st3 := {st2 with acceptedPeers := st2.acceptedPeers ++ [message.opponentWsId]}
  let ev3 := [CallEvent.storeSetIncomingCall (some message.connId)]
  let r := createCallPeerConnection st3 message.opponentWsId
  (r.1, ev0 ++ ev1 ++ ev2 ++ ev3 ++ r.2)

/-- Concrete pre-state for C7: a handler whose session is still active. -/
def c7ActiveState : CallHandlerState :=
  { localStream := some 1
    localStreamActive := true
    callStatus := CallStatus.sent_offer
    connectionId := some "old"
    acceptedPeers := []
    webrtcConnnectionsIds := []
    ownWsId := "w" }

/-- Concrete offer message for C7. -/
def c7Offer : OfferCallMessage :=
  { connId := "new", roomId := 1, userId := 2, opponentWsId := "z" }

/-- C7 (counterexample): with a session already active (`connectionId` is
`some "old"`), the claim says the incoming offer is rejected and the new
session is not recorded.  Evaluating `initAndDisplayOffer` shows the handler
nevertheless records the new connection id, subscribes to it and replies —
the error is only logged. -/
theorem initAndDisplayOffer_records_despite_active_session :
    (initAndDisplayOffer c7ActiveState c7Offer).1.connectionId = some "new" ∧
    CallEvent.subscribe "new" ∈ (initAndDisplayOffer c7ActiveState c7Offer).2 ∧
    CallEvent.wsReplyCall "new" ∈ (initAndDisplayOffer c7ActiveState c7Offer).2 ∧
    CallEvent.logError "Old connId still exists old"
      ∈ (initAndDisplayOffer c7ActiveState c7Offer).2 := by
  refine ⟨rfl, ?_, ?_, ?_⟩ <;> decide

/-- C7 (amended): `initAndDisplayOffer` never rejects: it always records the
new connection id, subscribes to the session key, replies to the relay,
queues the offering opponent, surfaces the incoming-call model and creates
the peer connection; an already-active session additionally produces an error
log (and no exception), but does not stop any of the above. -/
theorem initAndDisplayOffer_always_proceeds (st : CallHandlerState)
    (message : OfferCallMessage) :
    (initAndDisplayOffer st message).1.connectionId = some message.connId ∧
    (initAndDisplayOffer st message).1.callStatus = CallStatus.received_offer ∧
    (initAndDisplayOffer st message).1.acceptedPeers
      = st.acceptedPeers ++ [message.opponentWsId] ∧
    (initAndDisplayOffer st message).1.webrtcConnnectionsIds
      = st.webrtcConnnectionsIds ++ [message.opponentWsId] ∧
    CallEvent.subscribe (getTransferId message.connId)
      ∈ (initAndDisplayOffer st message).2 ∧
    CallEvent.wsReplyCall message.connId ∈ (initAndDisplayOffer st message).2 ∧
    CallEvent.storeSetIncomingCall (some message.connId)
      ∈ (initAndDisplayOffer st message).2 ∧
    CallEvent.createPeer (createCallPeerConnectionRole st.ownWsId message.opponentWsId)
      message.opponentWsId ∈ (initAndDisplayOffer st message).2 ∧
    (st.connectionId = none →
      ∀ m, CallEvent.logError m ∉ (initAndDisplayOffer st message).2) ∧
    (∀ old, st.connectionId = some old →
      CallEvent.logError ("Old connId still exists " ++ old)
        ∈ (initAndDisplayOffer st message).2) := by
  refine ⟨rfl, rfl, rfl, rfl, ?_, ?_, ?_, ?_, ?_, ?_⟩
  · cases h : st.connectionId <;> simp [initAndDisplayOffer, createCallPeerConnection, h]
  · cases h : st.connectionId <;> simp [initAndDisplayOffer, createCallPeerConnection, h]
  · cases h : st.connectionId <;> simp [initAndDisplayOffer, createCallPeerConnection, h]
  · cases h : st.connectionId <;> simp [initAndDisplayOffer, createCallPeerConnection, h]
  · intro h m
    simp [initAndDisplayOffer, createCallPeerConnection, h]
  · intro old h
    simp [initAndDisplayOffer, createCallPeerConnection, h]

/-- C7 witness for the amended theorem: applied to a fresh handler (no active
session) and the concrete offer. -/
theorem initAndDisplayOffer_always_proceeds_witness :
    (initAndDisplayOffer {c7ActiveState with connectionId := none} c7Offer).1.connectionId
      = some "new" ∧
    CallEvent.logError "Old connId still exists old"
      ∉ (initAndDisplayOffer {c7ActiveState with connectionId := none} c7Offer).2 :=
  ⟨(initAndDisplayOffer_always_proceeds {c7ActiveState with connectionId := none} c7Offer).1,
   (initAndDisplayOffer_always_proceeds
      {c7ActiveState with connectionId := none} c7Offer).2.2.2.2.2.2.2.2.1 rfl
      "Old connId still exists old"⟩

/-! ### AbstractPeerConnection / FilePeerConnection teardown
(src/frontend/src/webrtc/AbstractPeerConnection.ts,
src/frontend/src/webrtc/file/FilePeerConnection.ts) -/

/-- The native `RTCPeerConnection.signalingState` values relevant here. -/
inductive SignalingState where
  | stable
  | haveLocalOffer
  | haveRemoteOffer
  | closed
deriving DecidableEq, Repr

/-- The native `RTCPeerConnection.iceConnectionState` values. -/
inductive IceConnectionState where
  | iceNew
  | checking
  | iceConnected
  | completed
  | failed
  | disconnected
  | iceClosed
deriving DecidableEq, Repr

/-- The native peer connection, as far as the embedded methods observe it. -/
structure NativePeerConnection where
  signalingState : SignalingState
  iceConnectionState : IceConnectionState
deriving DecidableEq, Repr

/-- `RTCDataChannel.readyState` values (`open` is a Lean keyword, spelled
`opened`). -/
inductive RTCDataChannelState where
  | connecting
  | opened
  | closing
  | closed
deriving DecidableEq, Repr

/-- `FileTransferStatus` (the transfer sub-record status enum of the model
types module). -/
inductive FileTransferStatus where
  | NOT_DECIDED_YET
  | DECLINED_BY_OPPONENT
  | DECLINED_BY_YOU
  | FINISHED
  | ERROR
  | IN_PROGRESS
deriving DecidableEq, Repr

/-- State of one file peer connection: the fields of
`AbstractPeerConnection` (`connectionStatus`, `pc`, `sendChannel`, the
subscription created in the constructor) plus the status of the transfer
record the file subclasses maintain. -/
structure FilePeerConnectionState where
  connectionStatus : ConnectionStatus
  pc : Option NativePeerConnection
  sendChannel : Option RTCDataChannelState
  transferStatus : FileTransferStatus
  subscribed : Bool
  connectionId : String
  opponentWsId : String
deriving DecidableEq, Repr

/-- Observable actions of the teardown methods, in emission order. -/
inductive PCEvent where
  | nativeClose
  | channelClose
  | datachannelclose (reason : String)
  | notifyRemovePeerConnection (handler : String) (opponentWsId : String)
  | unsubscribe (key : String)
deriving DecidableEq, Repr

/-- `AbstractPeerConnection.closePeerConnection` (lines 98-106): sets the
connection status to `closed` and calls `this.pc.close()` only when a native
connection exists whose `signalingState` is not already `closed` (the native
close moves the signaling state to `closed`). -/
def closePeerConnection (st : FilePeerConnectionState) :
    FilePeerConnectionState × List PCEvent :=
  let st1 := {st with connectionStatus := ConnectionStatus.closed}
  match st1.pc with
  | some native =>
    if native.signalingState ≠ SignalingState.closed then
      ({st1 with pc := some {native with signalingState := SignalingState.closed}},
       [PCEvent.nativeClose])
    else (st1, [])
  | none => (st1, [])

/-- Modelled from the spec: `ondatachannelclose` is abstract in
`AbstractPeerConnection` and its file sender/receiver implementations are not
under the provided sources; per the spec, a channel close with a reason
"treats it as a transfer failure, notifies the transfer record
(status → error ...)". -/
def ondatachannelclose (st : FilePeerConnectionState) (reason : String) :
    FilePeerConnectionState × List PCEvent :=
  ({st with transferStatus := FileTransferStatus.ERROR},
   [PCEvent.datachannelclose reason])

/-- `FilePeerConnection.closeEvents` (lines 12-24): when a reason text is
present it first notifies `ondatachannelclose`, then closes the peer
connection, then closes `sendChannel` when one exists whose `readyState` is
not already `closed`. -/
def closeEvents (st : FilePeerConnectionState) (text : Option String) :
    FilePeerConnectionState × List PCEvent :=
  let r1 := match text with
    | some t => ondatachannelclose st t
    | none => (st, [])
  let r2 := closePeerConnection r1.1
  let st2 := r2.1
  match st2.sendChannel with
  | some rs =>
    if rs ≠ RTCDataChannelState.closed then
      ({st2 with sendChannel := some RTCDataChannelState.closed},
       r1.2 ++ r2.2 ++ [PCEvent.channelClose])
    else (st2, r1.2 ++ r2.2)
  | none => (st2, r1.2 ++ r2.2)

/-- `AbstractPeerConnection.onDestroy` (lines 63-72): unconditionally notifies
the owning session with `removePeerConnection` and unsubscribes this link's
pair-scoped key. -/
def onDestroy (st : FilePeerConnectionState) : FilePeerConnectionState × List PCEvent :=
  ({st with subscribed := false},
   [PCEvent.notifyRemovePeerConnection (getTransferId st.connectionId) st.opponentWsId,
    PCEvent.unsubscribe (getPeerConnectionId st.connectionId st.opponentWsId)])

/-- Modelled from the spec: the spec's `close(reason)` operation — "sets status
to `closed`, closes the data channel if open, closes the underlying native
connection if not already closed, and notifies the owning session" — is
performed by the source's `closeEvents` followed by `onDestroy`; the call
site that strings them together lives in the peer-connection subclasses that
are not under the provided sources. -/
def closeLink (st : FilePeerConnectionState) (reason : String) :
    FilePeerConnectionState × List PCEvent :=
  let r1 := closeEvents st (some reason)
  let r2 := onDestroy r1.1
  (r2.1, r1.2 ++ r2.2)

/-- Number of `removePeerConnection` notifications in a trace. -/
def countRemovePeerConnection (evs : List PCEvent) : Nat :=
  (evs.filter (fun e =>
    match e with
    | PCEvent.notifyRemovePeerConnection _ _ => true
    | _ => false)).length

/-- Number of native `pc.close()` calls in a trace. -/
def countNativeClose (evs : List PCEvent) : Nat :=
  (evs.filter (fun e =>
    match e with
    | PCEvent.nativeClose => true
    | _ => false)).length

/-- Number of `sendChannel.close()` calls in a trace. -/
def countChannelClose (evs : List PCEvent) : Nat :=
  (evs.filter (fun e =>
    match e with
    | PCEvent.channelClose => true
    | _ => false)).length

/-- Concrete open link for the C3 counterexample. -/
def c3State : FilePeerConnectionState :=
  { connectionStatus := ConnectionStatus.connected
    pc := some { signalingState := SignalingState.stable
                 iceConnectionState := IceConnectionState.iceConnected }
    sendChannel := some RTCDataChannelState.opened
    transferStatus := FileTransferStatus.IN_PROGRESS
    subscribed := true
    connectionId := "c"
    opponentWsId := "o" }

/-- C3 (counterexample): closing the same link twice emits the
`removePeerConnection` notification to the owning session twice —
`onDestroy` sends it unconditionally on every invocation — refuting the
claim's "not emitted twice" part (the end state itself is unchanged by the
second close). -/
theorem closeLink_twice_double_emits :
    countRemovePeerConnection ((closeLink c3State "x").2
      ++ (closeLink (closeLink c3State "x").1 "x").2) = 2 ∧
    (closeLink (closeLink c3State "x").1 "x").1 = (closeLink c3State "x").1 := by
  decide

/-- C3 (amended): closing a peer link twice produces the same end state as
closing it once (status `closed`, native connection and channel closed), the
underlying native connection is released exactly once (the second close finds
`signalingState` already `closed` and releases nothing) and the data channel
is closed exactly once — but the `removePeerConnection` notification is
emitted once per invocation, hence twice when `close` runs twice. -/
theorem closeLink_idempotent (st : FilePeerConnectionState) (r1 r2 : String) :
    (closeLink (closeLink st r1).1 r2).1 = (closeLink st r1).1 ∧
    (closeLink st r1).1.connectionStatus = ConnectionStatus.closed ∧
    countNativeClose (closeLink (closeLink st r1).1 r2).2 = 0 ∧
    countChannelClose (closeLink (closeLink st r1).1 r2).2 = 0 ∧
    countNativeClose (closeLink st r1).2 ≤ 1 ∧
    countChannelClose (closeLink st r1).2 ≤ 1 ∧
    (∀ native, st.pc = some native → native.signalingState ≠ SignalingState.closed →
      countNativeClose (closeLink st r1).2 = 1) ∧
    countRemovePeerConnection (closeLink st r1).2 = 1 ∧
    countRemovePeerConnection (closeLink (closeLink st r1).1 r2).2 = 1 := by
  obtain ⟨cs, pc, sc, ts, sub, ci, ow⟩ := st
  refine ⟨?_, ?_, ?_, ?_, ?_, ?_, ?_, ?_, ?_⟩ <;>
  [skip; skip; skip; skip; skip; skip; (intro native hpc hsig); skip; skip] <;>
  · cases pc with
    | none =>
      cases sc with
      | none =>
        simp_all [closeLink, closeEvents, closePeerConnection, ondatachannelclose,
          onDestroy, countNativeClose, countChannelClose, countRemovePeerConnection]
      | some rs =>
        rcases rs <;>
          simp_all [closeLink, closeEvents, closePeerConnection, ondatachannelclose,
            onDestroy, countNativeClose, countChannelClose, countRemovePeerConnection]
    | some native2 =>
      obtain ⟨sig, ice⟩ := native2
      cases sc with
      | none =>
        rcases sig <;>
          simp_all [closeLink, closeEvents, closePeerConnection, ondatachannelclose,
            onDestroy, countNativeClose, countChannelClose, countRemovePeerConnection]
      | some rs =>
        rcases sig <;> rcases rs <;>
          simp_all [closeLink, closeEvents, closePeerConnection, ondatachannelclose,
            onDestroy, countNativeClose, countChannelClose, countRemovePeerConnection]

/-- C3 witness: the amended theorem applied to the concrete open link, its
conditional conjunct discharged at the concrete native connection. -/
theorem closeLink_idempotent_witness :
    (closeLink (closeLink c3State "a").1 "b").1 = (closeLink c3State "a").1 ∧
    countNativeClose (closeLink c3State "a").2 = 1 :=
  ⟨(closeLink_idempotent c3State "a" "b").1,
   (closeLink_idempotent c3State "a" "b").2.2.2.2.2.2.1
     { signalingState := SignalingState.stable
       iceConnectionState := IceConnectionState.iceConnected } rfl (by decide)⟩

/-- `FilePeerConnection.oniceconnectionstatechange` (lines 6-10): reads
`this.pc!.iceConnectionState` (`none` pc faults, modelled as `Option.none`)
and runs `closeEvents('Connection has been lost')` exactly when the state is
`disconnected`. -/
def oniceconnectionstatechange (st : FilePeerConnectionState) :
    Option (FilePeerConnectionState × List PCEvent) :=
  match st.pc with
  | none => none
  | some native =>
    if native.iceConnectionState = IceConnectionState.disconnected then
      some (closeEvents st (some "Connection has been lost"))
    else some (st, [])

/-- Helper for C8: what `closeEvents` with a failure reason guarantees. -/
theorem closeEvents_reason_spec (st : FilePeerConnectionState) (t : String) :
    (closeEvents st (some t)).1.transferStatus = FileTransferStatus.ERROR ∧
    (closeEvents st (some t)).1.connectionStatus = ConnectionStatus.closed ∧
    PCEvent.datachannelclose t ∈ (closeEvents st (some t)).2 ∧
    (∀ native, st.pc = some native → native.signalingState ≠ SignalingState.closed →
      countNativeClose (closeEvents st (some t)).2 = 1) ∧
    (∀ native, st.pc = some native → native.signalingState = SignalingState.closed →
      countNativeClose (closeEvents st (some t)).2 = 0) ∧
    (∀ rs, st.sendChannel = some rs → rs ≠ RTCDataChannelState.closed →
      (closeEvents st (some t)).1.sendChannel = some RTCDataChannelState.closed ∧
      countChannelClose (closeEvents st (some t)).2 = 1) ∧
    (st.sendChannel = some RTCDataChannelState.closed →
      (closeEvents st (some t)).1.sendChannel = some RTCDataChannelState.closed ∧
      countChannelClose (closeEvents st (some t)).2 = 0) := by
  obtain ⟨cs, pc, sc, ts, sub, ci, ow⟩ := st
  cases pc with
  | none =>
    cases sc with
    | none =>
      simp_all [closeEvents, closePeerConnection, ondatachannelclose,
        countNativeClose, countChannelClose]
    | some rs =>
      rcases rs <;>
        simp_all [closeEvents, closePeerConnection, ondatachannelclose,
          countNativeClose, countChannelClose]
  | some native =>
    obtain ⟨sig, ice⟩ := native
    cases sc with
    | none =>
      rcases sig <;>
        simp_all [closeEvents, closePeerConnection, ondatachannelclose,
          countNativeClose, countChannelClose]
    | some rs =>
      rcases sig <;> rcases rs <;>
        simp_all [closeEvents, closePeerConnection, ondatachannelclose,
          countNativeClose, countChannelClose]

/-- C8: when the ICE connection state reports `disconnected` on a link whose
transfer is `IN_PROGRESS`, the handler runs `closeEvents` with a failure
reason: the data-channel-close handler is notified with that reason (the
transfer record ends in `ERROR`, not `IN_PROGRESS`), the connection status
becomes `closed`, the native connection is closed exactly when it was not
already closed, and the send channel is closed exactly when its `readyState`
was not already `closed`. -/
theorem ice_disconnect_fails_transfer (st : FilePeerConnectionState)
    (native : NativePeerConnection)
    (hpc : st.pc = some native)
    (hice : native.iceConnectionState = IceConnectionState.disconnected)
    (hts : st.transferStatus = FileTransferStatus.IN_PROGRESS) :
    ∃ st2 evs, oniceconnectionstatechange st = some (st2, evs) ∧
      st2.transferStatus = FileTransferStatus.ERROR ∧
      st2.connectionStatus = ConnectionStatus.closed ∧
      PCEvent.datachannelclose "Connection has been lost" ∈ evs ∧
      (native.signalingState ≠ SignalingState.closed → countNativeClose evs = 1) ∧
      (native.signalingState = SignalingState.closed → countNativeClose evs = 0) ∧
      (∀ rs, st.sendChannel = some rs → rs ≠ RTCDataChannelState.closed →
        st2.sendChannel = some RTCDataChannelState.closed ∧ countChannelClose evs = 1) ∧
      (st.sendChannel = some RTCDataChannelState.closed →
        st2.sendChannel = some RTCDataChannelState.closed ∧ countChannelClose evs = 0) := by
  refine ⟨(closeEvents st (some "Connection has been lost")).1,
          (closeEvents st (some "Connection has been lost")).2,
          ?_, ?_, ?_, ?_, ?_, ?_, ?_, ?_⟩
  · simp [oniceconnectionstatechange, hpc, hice]
  · exact (closeEvents_reason_spec st _).1
  · exact (closeEvents_reason_spec st _).2.1
  · exact (closeEvents_reason_spec st _).2.2.1
  · exact fun h => (closeEvents_reason_spec st _).2.2.2.1 native hpc h
  · exact fun h => (closeEvents_reason_spec st _).2.2.2.2.1 native hpc h
  · exact (closeEvents_reason_spec st _).2.2.2.2.2.1
  · exact (closeEvents_reason_spec st _).2.2.2.2.2.2

/-- Concrete pre-state for the C8 witness: the ICE layer of an in-progress
transfer just reported `disconnected`. -/
def c8State : FilePeerConnectionState :=
  { connectionStatus := ConnectionStatus.connected
    pc := some { signalingState := SignalingState.stable
                 iceConnectionState := IceConnectionState.disconnected }
    sendChannel := some RTCDataChannelState.opened
    transferStatus := FileTransferStatus.IN_PROGRESS
    subscribed := true
    connectionId := "c"
    opponentWsId := "o" }

/-- The native connection inside `c8State`. -/
def c8Native : NativePeerConnection :=
  { signalingState := SignalingState.stable
    iceConnectionState := IceConnectionState.disconnected }

/-- C8 witness: the theorem applied to the concrete disconnected in-progress
transfer. -/
theorem ice_disconnect_fails_transfer_witness :
    ∃ st2 evs, oniceconnectionstatechange c8State = some (st2, evs) ∧
      st2.transferStatus = FileTransferStatus.ERROR ∧
      st2.connectionStatus = ConnectionStatus.closed ∧
      PCEvent.datachannelclose "Connection has been lost" ∈ evs ∧
      (c8Native.signalingState ≠ SignalingState.closed → countNativeClose evs = 1) ∧
      (c8Native.signalingState = SignalingState.closed → countNativeClose evs = 0) ∧
      (∀ rs, c8State.sendChannel = some rs → rs ≠ RTCDataChannelState.closed →
        st2.sendChannel = some RTCDataChannelState.closed ∧ countChannelClose evs = 1) ∧
      (c8State.sendChannel = some RTCDataChannelState.closed →
        st2.sendChannel = some RTCDataChannelState.closed ∧ countChannelClose evs = 0) :=
  ice_disconnect_fails_transfer c8State c8Native rfl rfl rfl

/-! ### C4: `AbstractPeerConnection.onsendRtcData` and the pending queue -/

/-- The shapes `onsendRtcData` dispatches on: an SDP description, an ICE
candidate, an application-message envelope, or anything else (silently
ignored). -/
inductive RtcDataContent where
  | sdp (description : String)
  | candidate (value : String)
  | appMessage (value : String)
  | other
deriving DecidableEq, Repr

/-- The `OnSendRtcDataMessage` payload. -/
structure OnSendRtcDataMessage where
  content : RtcDataContent
deriving DecidableEq, Repr

/-- The slice of `AbstractPeerConnection` state that `onsendRtcData` touches:
the `connectedToRemote` flag of the concrete subclass, the
`sendRtcDataQueue`, and the native connection's ICE state
(`this.pc!.iceConnectionState`; `none` models an absent `pc`, which the
non-null assertion faults on). -/
structure AbstractPeerConnectionState where
  connectedToRemote : Bool
  sendRtcDataQueue : List OnSendRtcDataMessage
  iceConnectionState : Option IceConnectionState
deriving DecidableEq, Repr

/-- Observable processing steps of `onsendRtcData`. -/
inductive RtcProcessEvent where
  | setRemoteDescription (description : String)
  | addIceCandidate (value : String)
  | warnUnknownMessage (value : String)
  | skipClosedLog
deriving DecidableEq, Repr

/-- `AbstractPeerConnection.onsendRtcData` (lines 195-219): while
`connectedToRemote` is false the payload is pushed onto `sendRtcDataQueue`
and nothing is processed; otherwise, when the native ICE state exists and is
not `closed`, the payload is dispatched by shape (`setRemoteDescription` for
SDP, `addIceCandidate` for a candidate, a warning for an application message,
nothing for anything else); for a closed connection the message is skipped
with an error log.  `none` models the fault of the `this.pc!` assertion. -/
def onsendRtcData (st : AbstractPeerConnectionState) (message : OnSendRtcDataMessage) :
    Option (AbstractPeerConnectionState × List RtcProcessEvent) :=
  if st.connectedToRemote = false then
    some ({st with sendRtcDataQueue := st.sendRtcDataQueue ++ [message]}, [])
  else
    match st.iceConnectionState with
    | none => none
    | some ice =>
      if ice ≠ IceConnectionState.iceClosed then
        match message.content with
        | RtcDataContent.sdp d => some (st, [RtcProcessEvent.setRemoteDescription d])
        | RtcDataContent.candidate c => some (st, [RtcProcessEvent.addIceCandidate c])
        | RtcDataContent.appMessage m => some (st, [RtcProcessEvent.warnUnknownMessage m])
        | RtcDataContent.other => some (st, [])
      else some (st, [RtcProcessEvent.skipClosedLog])

/-- Deliver a list of payloads to `onsendRtcData` one after the other,
concatenating the emitted processing events. -/
def handleRtcMessages (st : AbstractPeerConnectionState)
    (messages : List OnSendRtcDataMessage) :
    Option (AbstractPeerConnectionState × List RtcProcessEvent) :=
  match messages with
  | [] => some (st, [])
  | m :: rest =>
    match onsendRtcData st m with
    | none => none
    | some r =>
      match handleRtcMessages r.1 rest with
      | none => none
      | some r2 => some (r2.1, r.2 ++ r2.2)

/-- Modelled from the spec: the flush site is in the concrete subclasses (not
under the provided sources) — on becoming connected the link marks
`connectedToRemote` and re-delivers every payload of `sendRtcDataQueue`
through `onsendRtcData`, in queue order, emptying the queue:  "flushed in
order once `connected`". -/
def flushQueue (st : AbstractPeerConnectionState) :
    Option (AbstractPeerConnectionState × List RtcProcessEvent) :=
  handleRtcMessages
    {st with connectedToRemote := true, sendRtcDataQueue := []}
    st.sendRtcDataQueue

/-- The processing events one payload produces on an open connected link
(the claim's notion of "the payload is processed"). -/
def processedEvents (m : OnSendRtcDataMessage) : List RtcProcessEvent :=
  match m.content with
  | RtcDataContent.sdp d => [RtcProcessEvent.setRemoteDescription d]
  | RtcDataContent.candidate c => [RtcProcessEvent.addIceCandidate c]
  | RtcDataContent.appMessage m => [RtcProcessEvent.warnUnknownMessage m]
  | RtcDataContent.other => []

/-- Helper: while not connected, delivering payloads only appends them to the
queue, in submission order, emitting nothing. -/
theorem handleRtcMessages_queueing (messages : List OnSendRtcDataMessage)
    (st : AbstractPeerConnectionState) (h : st.connectedToRemote = false) :
    handleRtcMessages st messages =
      some ({st with sendRtcDataQueue := st.sendRtcDataQueue ++ messages}, []) := by
  induction messages generalizing st with
  | nil => simp [handleRtcMessages]
  | cons m rest ih =>
    have hstep : onsendRtcData st m =
        some ({st with sendRtcDataQueue := st.sendRtcDataQueue ++ [m]}, []) := by
      simp [onsendRtcData, h]
    simp only [handleRtcMessages, hstep]
    rw [ih _ (by simp [h])]
    simp

/-- Helper: on a connected link with a live ICE state, delivering payloads
leaves the state unchanged and processes each payload once, in order. -/
theorem handleRtcMessages_connected (messages : List OnSendRtcDataMessage)
    (st : AbstractPeerConnectionState) (ice : IceConnectionState)
    (h : st.connectedToRemote = true)
    (hice : st.iceConnectionState = some ice)
    (hopen : ice ≠ IceConnectionState.iceClosed) :
    handleRtcMessages st messages = some (st, messages.flatMap processedEvents) := by
  induction messages generalizing st with
  | nil => simp [handleRtcMessages]
  | cons m rest ih =>
    have hstep : onsendRtcData st m = some (st, processedEvents m) := by
      cases hm : m.content <;>
        simp [onsendRtcData, h, hice, hopen, processedEvents, hm]
    simp only [handleRtcMessages, hstep]
    rw [ih st h hice]
    simp

/-- C4: starting from a not-yet-connected link, every payload handled is
appended to `sendRtcDataQueue` in submission order and none is processed;
once the link becomes connected the queue is flushed: each queued payload is
processed exactly once, in that same order, and the queue is left empty. -/
theorem pending_queue_flushed_in_order (st : AbstractPeerConnectionState)
    (messages : List OnSendRtcDataMessage) (ice : IceConnectionState)
    (hconn : st.connectedToRemote = false)
    (hice : st.iceConnectionState = some ice)
    (hopen : ice ≠ IceConnectionState.iceClosed) :
    handleRtcMessages st messages =
      some ({st with sendRtcDataQueue := st.sendRtcDataQueue ++ messages}, []) ∧
    flushQueue {st with sendRtcDataQueue := st.sendRtcDataQueue ++ messages} =
      some ({st with connectedToRemote := true, sendRtcDataQueue := []},
            (st.sendRtcDataQueue ++ messages).flatMap processedEvents) := by
  refine ⟨handleRtcMessages_queueing messages st hconn, ?_⟩
  unfold flushQueue
  rw [handleRtcMessages_connected _ _ ice rfl (by simp [hice]) hopen]

/-- Concrete pre-state and payloads for the C4 witness. -/
def c4State : AbstractPeerConnectionState :=
  { connectedToRemote := false
    sendRtcDataQueue := []
    iceConnectionState := some IceConnectionState.checking }

/-- Concrete payload list for the C4 witness: an SDP description followed by
an ICE candidate. -/
def c4Messages : List OnSendRtcDataMessage :=
  [{ content := RtcDataContent.sdp "offer-sdp" },
   { content := RtcDataContent.candidate "cand-1" }]

/-- C4 witness: the theorem applied to the concrete link and payloads. -/
theorem pending_queue_flushed_in_order_witness :
    handleRtcMessages c4State c4Messages =
      some ({c4State with sendRtcDataQueue := c4State.sendRtcDataQueue ++ c4Messages},
            []) ∧
    flushQueue {c4State with sendRtcDataQueue := c4State.sendRtcDataQueue ++ c4Messages} =
      some ({c4State with connectedToRemote := true, sendRtcDataQueue := []},
            (c4State.sendRtcDataQueue ++ c4Messages).flatMap processedEvents) :=
  pending_queue_flushed_in_order c4State c4Messages IceConnectionState.checking
    rfl rfl (by decide)

/-! ### C9: `AbstractPeerConnection.setMediaBitrate` (lines 149-181) -/

/-- JS `line.indexOf(pre) === 0`, i.e. "line starts with pre", computed on the
character data (structurally, so that concrete instances evaluate). -/
def strStartsWith (s pre : String) : Bool :=
  pre.data.isPrefixOf s.data

/-- Worker for `splitNewline`: accumulates the current line (reversed). -/
def splitNewlineAux (cur : List Char) : List Char → List String
  | [] => [String.mk cur.reverse]
  | c :: rest =>
    if c = '\n' then String.mk cur.reverse :: splitNewlineAux [] rest
    else splitNewlineAux (c :: cur) rest

/-- JS `sdp.split('\n')`: splits at every newline character; an empty string
yields one empty line, a trailing newline yields a trailing empty line. -/
def splitNewline (s : String) : List String :=
  splitNewlineAux [] s.data

/-- Worker for `skipIC`: walks the suffix of the line array starting at index
`line`.  Running off the end models the JS fault of
`lines[line].indexOf(...)` on `undefined`. -/
def skipICAux : List String → Nat → Option Nat
  | [], _ => none
  | l :: rest, line =>
    if strStartsWith l "i=" || strStartsWith l "c=" then skipICAux rest (line + 1)
    else some line

/-- The while loop of `setMediaBitrate` that skips `i=` and `c=` lines
following the first `m=` line. -/
def skipIC (lines : List String) (line : Nat) : Option Nat :=
  skipICAux (lines.drop line) line

/-- `AbstractPeerConnection.setMediaBitrate` (lines 149-181): splits the SDP
at newlines; if no line starts with `m=` the SDP is returned unchanged;
otherwise, starting just after the first `m=` line it skips `i=` and `c=`
lines, then either replaces the line found there when it starts with `b`, or
inserts a new `b=AS:<bitrate>` line before it, and joins the lines again.
Reading past the end of the line array (first `m=` line last, or followed
only by `i=`/`c=` lines) faults in JS and is modelled by `none`. -/
def setMediaBitrate (sdp : String) (bitrate : Nat) : Option String :=
  let lines := splitNewline sdp
  match lines.findIdx? (fun l => strStartsWith l "m=") with
  | none => some sdp
  | some i =>
    match skipIC lines (i + 1) with
    | none => none
    | some line =>
      match lines[line]? with
      | none => none
      | some l =>
        if strStartsWith l "b" then
          some (String.intercalate "\n" (lines.set line ("b=AS:" ++ toString bitrate)))
        else
          some (String.intercalate "\n"
            (lines.take line ++ ("b=AS:" ++ toString bitrate) :: lines.drop line))

/-- C9 (counterexample): the claim demands a result with a `b=AS:` line for
EVERY SDP containing an `m=` line; on the SDP consisting of the single line
`m=video` the routine instead faults (the skip loop reads `lines[1]` which
does not exist), modelled as `none`. -/
theorem setMediaBitrate_faults_on_trailing_m_line :
    setMediaBitrate "m=video" 1638400 = none := by
  decide

/-- Helper: `skipIC` lands on the first index `j ≥ s` whose line is not an
`i=`/`c=` line, provided such an in-range index exists. -/
theorem skipIC_eq_some (lines : List String) (j : Nat) (lj : String)
    (hj : lines[j]? = some lj)
    (hlj : (strStartsWith lj "i=" || strStartsWith lj "c=") = false) :
    ∀ s, s ≤ j →
      (∀ k, s ≤ k → k < j → ∀ lk, lines[k]? = some lk →
        (strStartsWith lk "i=" || strStartsWith lk "c=") = true) →
      skipIC lines s = some j := by
  have hjlt : j < lines.length := by
    rcases List.getElem?_eq_some_iff.mp hj with ⟨h, _⟩
    exact h
  have main : ∀ n s, j - s = n → s ≤ j →
      (∀ k, s ≤ k → k < j → ∀ lk, lines[k]? = some lk →
        (strStartsWith lk "i=" || strStartsWith lk "c=") = true) →
      skipIC lines s = some j := by
    intro n
    induction n with
    | zero =>
      intro s hn hle _
      have hsj : s = j := by omega
      subst hsj
      have hdrop : lines.drop s = lj :: lines.drop (s + 1) := by
        rw [List.drop_eq_getElem_cons hjlt]
        rcases List.getElem?_eq_some_iff.mp hj with ⟨_, hget⟩
        rw [hget]
      rw [skipIC, hdrop]
      simp [skipICAux, hlj]
    | succ n ih =>
      intro s hn hle hmid
      have hsj : s < j := by omega
      have hslt : s < lines.length := by omega
      have hs : lines[s]? = some lines[s] := List.getElem?_eq_some_iff.mpr ⟨hslt, rfl⟩
      have hskip : (strStartsWith lines[s] "i=" || strStartsWith lines[s] "c=") = true :=
        hmid s le_rfl hsj lines[s] hs
      have hdrop : lines.drop s = lines[s] :: lines.drop (s + 1) :=
        List.drop_eq_getElem_cons hslt
      have hrec : skipIC lines (s + 1) = some j := by
        refine ih (s + 1) (by omega) (by omega) ?_
        intro k hk1 hk2 lk hlk
        exact hmid k (by omega) hk2 lk hlk
      rw [skipIC, hdrop]
      simp only [skipICAux, hskip, if_pos rfl]
      rw [← skipIC, hrec]
      simp [hskip]
  intro s hle hmid
  exact main (j - s) s rfl hle hmid

/-- C9 (amended): `setMediaBitrate` behaves as the claim says whenever the
skip loop stays in range: an SDP with no `m=` line is returned unchanged; an
SDP whose first `m=` line (index `i`) is followed — after a run of `i=`/`c=`
lines — by some further line (index `j`) comes back with `b=AS:<bitrate>`
placed at `j`, replacing that line when it starts with `b` and being inserted
before it otherwise, all other lines unchanged and in order.  (When no line
follows the `i=`/`c=` run the routine faults instead, see the
counterexample.) -/
theorem setMediaBitrate_spec (sdp : String) (bitrate : Nat) :
    ((∀ l ∈ splitNewline sdp, strStartsWith l "m=" = false) →
      setMediaBitrate sdp bitrate = some sdp) ∧
    (∀ i j li lj,
      (splitNewline sdp)[i]? = some li →
      strStartsWith li "m=" = true →
      (∀ k, k < i → ∀ lk, (splitNewline sdp)[k]? = some lk →
        strStartsWith lk "m=" = false) →
      i < j →
      (∀ k, i < k → k < j → ∀ lk, (splitNewline sdp)[k]? = some lk →
        (strStartsWith lk "i=" || strStartsWith lk "c=") = true) →
      (splitNewline sdp)[j]? = some lj →
      (strStartsWith lj "i=" || strStartsWith lj "c=") = false →
      setMediaBitrate sdp bitrate = some (String.intercalate "\n"
        ((splitNewline sdp).take j ++ ("b=AS:" ++ toString bitrate) ::
          (if strStartsWith lj "b" then (splitNewline sdp).drop (j + 1)
           else (splitNewline sdp).drop j)))) := by
  constructor
  · intro hnone
    have hfind : (splitNewline sdp).findIdx? (fun l => strStartsWith l "m=") = none :=
      List.findIdx?_eq_none_iff.mpr hnone
    simp [setMediaBitrate, hfind]
  · intro i j li lj hi hpi hfirst hij hmid hj hlj
    rcases List.getElem?_eq_some_iff.mp hi with ⟨hilt, hieq⟩
    have hfind : (splitNewline sdp).findIdx? (fun l => strStartsWith l "m=") = some i := by
      rw [List.findIdx?_eq_some_iff_getElem]
      refine ⟨hilt, ?_, ?_⟩
      · rw [hieq]
        exact hpi
      · intro k hk
        have hkl : k < (splitNewline sdp).length := by omega
        simp only [Bool.not_eq_true]
        exact hfirst k hk _ (List.getElem?_eq_getElem hkl)
    have hskip : skipIC (splitNewline sdp) (i + 1) = some j := by
      refine skipIC_eq_some (splitNewline sdp) j lj hj hlj (i + 1) (by omega) ?_
      intro k hk1 hk2 lk hlk
      exact hmid k (by omega) hk2 lk hlk
    have hjlt : j < (splitNewline sdp).length := by
      rcases List.getElem?_eq_some_iff.mp hj with ⟨h, _⟩
      exact h
    cases hb : strStartsWith lj "b" with
    | true =>
      simp only [setMediaBitrate, hfind, hskip, hj, hb, if_pos rfl, if_true]
      rw [List.set_eq_take_cons_drop _ hjlt]
    | false =>
      simp [setMediaBitrate, hfind, hskip, hj, hb]

/-- Concrete SDP for the C9 witness: a session line, the first `m=` line, a
`c=` line to skip, then an attribute line (no existing `b` line, so a new one
is inserted before index 3). -/
def c9Sdp : String :=
  "v=0\nm=video 9\nc=IN\na=x"

/-- C9 witness: the amended theorem applied to an SDP without any `m=` line
(returned unchanged) and to `c9Sdp` at the concrete indices i = 1, j = 3. -/
theorem setMediaBitrate_spec_witness :
    setMediaBitrate "v=0" 1638400 = some "v=0" ∧
    setMediaBitrate c9Sdp 1638400 = some (String.intercalate "\n"
      ((splitNewline c9Sdp).take 3 ++ ("b=AS:" ++ toString 1638400) ::
        (if strStartsWith "a=x" "b" then (splitNewline c9Sdp).drop (3 + 1)
         else (splitNewline c9Sdp).drop 3))) :=
  ⟨(setMediaBitrate_spec "v=0" 1638400).1 (by decide),
   (setMediaBitrate_spec c9Sdp 1638400).2 1 3 "m=video 9" "a=x"
     (by decide) (by decide)
     (by
       intro k hk lk hlk
       have hk0 : k = 0 := by omega
       subst hk0
       have hv : (splitNewline c9Sdp)[0]? = some "v=0" := by decide
       rw [hv] at hlk
       injection hlk with hlk
       subst hlk
       decide)
     (by decide)
     (by
       intro k hk1 hk2 lk hlk
       have hk2' : k = 2 := by omega
       subst hk2'
       have hv : (splitNewline c9Sdp)[2]? = some "c=IN" := by decide
       rw [hv] at hlk
       injection hlk with hlk
       subst hlk
       decide)
     (by decide) (by decide)⟩

/-! ### C10: `showVideo`/`shareScreen` exclusion in the store
(src/fe/src/utils/store.ts, src/unnamed/part_003) -/

/-- One entry of the `calls` dictionary (`CallInfoModel` of the model types
module). -/
structure CallInfoModel where
  mediaStreamLink : Option String
  connected : Bool
  userId : Nat
  opponentCurrentVoice : Nat
deriving DecidableEq, Repr

/-- The per-room `callInfo` record (`CallsInfoModel` of the model types
module); the `calls` dictionary is modelled as an association list keyed by
opponent ws id. -/
structure CallsInfoModel where
  calls : List (String × CallInfoModel)
  callContainer : Bool
  showMic : Bool
  currentMicLevel : Nat
  mediaStreamLink : Option String
  currentMic : Option String
  currentSpeaker : Option String
  currentWebcam : Option String
  showVideo : Bool
  shareScreen : Bool
  callActive : Bool
deriving DecidableEq, Repr

/-- The `callInfo` record that `getRoomsBaseDict` (src/unnamed/part_003,
lines 74-86) builds for every room. -/
def getRoomsBaseDictCallInfo : CallsInfoModel :=
  { calls := []
    mediaStreamLink := none
    showMic := true
    callContainer := false
    callActive := false
    shareScreen := false
    showVideo := true
    currentMic := none
    currentSpeaker := none
    currentWebcam := none
    currentMicLevel := 0 }

/-- Every `DefaultStore` mutation that touches a room's `callInfo` record
(src/fe/src/utils/store.ts); no other mutation of the store reads or writes
any `callInfo` field. -/
inductive CallInfoMutation where
  | setCallOpponent (opponentWsId : String) (callInfoModel : Option CallInfoModel)
  | setOpponentVoice (opponentWsId : String) (voice : Nat)
  | setOpponentAnchor (opponentWsId : String) (key : String)
  | toggleContainer
  | setContainerToState (state : Bool)
  | setCurrentMicLevel (state : Nat)
  | setCurrentMic (state : Option String)
  | setCurrentSpeaker (state : Option String)
  | setCurrentWebcam (state : Option String)
  | setMicToState (state : Bool)
  | setVideoToState (state : Bool)
  | setShareScreenToState (state : Bool)
  | setCallActiveToState (state : Bool)
  | setLocalStreamSrc (key : Option String)
deriving DecidableEq, Repr

/-- Update the entry of an association list at a key (pointwise; the source
faults when the key is absent, which leaves no state change either). -/
def updateCallEntry (calls : List (String × CallInfoModel)) (k : String)
    (f : CallInfoModel → CallInfoModel) : List (String × CallInfoModel) :=
  calls.map (fun p => if p.1 = k then (p.1, f p.2) else p)

/-- The state change each `callInfo` mutation performs
(src/fe/src/utils/store.ts, lines 254-352): in particular `setVideoToState`
(lines 321-325) also forces `shareScreen := false` and
`setShareScreenToState` (lines 335-339) also forces `showVideo := false`. -/
def applyCallInfoMutation (ci : CallsInfoModel) (m : CallInfoMutation) :
    CallsInfoModel :=
  match m with
  | CallInfoMutation.setCallOpponent opp model =>
    match model with
    | some cim =>
      if (ci.calls.map Prod.fst).contains opp then
        {ci with calls := updateCallEntry ci.calls opp (fun _ => cim)}
      else
        {ci with calls := ci.calls ++ [(opp, cim)]}
    | none => {ci with calls := ci.calls.filter (fun p => p.1 ≠ opp)}
  | CallInfoMutation.setOpponentVoice opp voice =>
    {ci with calls := updateCallEntry ci.calls opp (fun c => {c with opponentCurrentVoice := voice})}
  | CallInfoMutation.setOpponentAnchor opp key =>
    {ci with calls := updateCallEntry ci.calls opp (fun c => {c with mediaStreamLink := some key})}
  | CallInfoMutation.toggleContainer =>
    {ci with callContainer := !ci.callContainer}
  | CallInfoMutation.setContainerToState s => {ci with callContainer := s}
  | CallInfoMutation.setCurrentMicLevel s => {ci with currentMicLevel := s}
  | CallInfoMutation.setCurrentMic s => {ci with currentMic := s}
  | CallInfoMutation.setCurrentSpeaker s => {ci with currentSpeaker := s}
  | CallInfoMutation.setCurrentWebcam s => {ci with currentWebcam := s}
  | CallInfoMutation.setMicToState s => {ci with showMic := s}
  | CallInfoMutation.setVideoToState s =>
    {ci with showVideo := s, shareScreen := false}
  | CallInfoMutation.setShareScreenToState s =>
    {ci with shareScreen := s, showVideo := false}
  | CallInfoMutation.setCallActiveToState s => {ci with callActive := s}
  | CallInfoMutation.setLocalStreamSrc key => {ci with mediaStreamLink := key}

/-- The invariant of C10: camera video and screen share are never both
selected. -/
def callInfoInvariant (ci : CallsInfoModel) : Prop :=
  ¬(ci.showVideo = true ∧ ci.shareScreen = true)

/-- C10: `getRoomsBaseDict` starts every room with `showVideo = true` and
`shareScreen = false`, every `callInfo`-touching store mutation preserves
the exclusion `¬(showVideo ∧ shareScreen)` (in particular `setVideoToState`
clears `shareScreen` and `setShareScreenToState` clears `showVideo`), and
therefore every sequence of mutations applied to the initial state satisfies
it. -/
theorem callInfo_exclusion :
    callInfoInvariant getRoomsBaseDictCallInfo ∧
    (∀ (ci : CallsInfoModel) (m : CallInfoMutation),
      callInfoInvariant ci → callInfoInvariant (applyCallInfoMutation ci m)) ∧
    (∀ ms : List CallInfoMutation,
      callInfoInvariant (ms.foldl applyCallInfoMutation getRoomsBaseDictCallInfo)) := by
  have hinit : callInfoInvariant getRoomsBaseDictCallInfo := by
    simp [callInfoInvariant, getRoomsBaseDictCallInfo]
  have hstep : ∀ (ci : CallsInfoModel) (m : CallInfoMutation),
      callInfoInvariant ci → callInfoInvariant (applyCallInfoMutation ci m) := by
    intro ci m h
    cases m with
    | setCallOpponent opp model =>
      cases model with
      | some cim =>
        by_cases hc : (ci.calls.map Prod.fst).contains opp = true <;>
          simp_all [callInfoInvariant, applyCallInfoMutation]
      | none => simp_all [callInfoInvariant, applyCallInfoMutation]
    | setVideoToState s => simp [callInfoInvariant, applyCallInfoMutation]
    | setShareScreenToState s => simp [callInfoInvariant, applyCallInfoMutation]
    | _ => simp_all [callInfoInvariant, applyCallInfoMutation]
  refine ⟨hinit, hstep, ?_⟩
  intro ms
  have : ∀ (ci : CallsInfoModel), callInfoInvariant ci →
      callInfoInvariant (ms.foldl applyCallInfoMutation ci) := by
    induction ms with
    | nil => intro ci h; simpa using h
    | cons m rest ih =>
      intro ci h
      simpa using ih (applyCallInfoMutation ci m) (hstep ci m h)
  exact this getRoomsBaseDictCallInfo hinit

/-- C10 witness: the step conjunct applied to the initial state and the
mutation that enables screen share. -/
theorem callInfo_exclusion_witness :
    callInfoInvariant
      (applyCallInfoMutation getRoomsBaseDictCallInfo
        (CallInfoMutation.setShareScreenToState true)) :=
  callInfo_exclusion.2.1 getRoomsBaseDictCallInfo
    (CallInfoMutation.setShareScreenToState true)
    (by simp [callInfoInvariant, getRoomsBaseDictCallInfo])

end Djangochat
